import Mathlib

/-
Verification development for the StartBot client orchestration core
(frontend/src/lib/api.ts, lib/auth-context.tsx, components/auth/route-guard.tsx,
and the per-agent screens: evaluation, market research, legal documents).

The TypeScript source is embedded shallowly: every asynchronous network call
is modeled by an explicit outcome value (the behavior of the server or of the
transport for that one call), and each handler becomes a pure Lean function
from its inputs and those outcomes to its resulting component state, together
with a count of the network calls it issued.
-/

namespace StartBot

/-- Model of the JavaScript error values that can be thrown along the request
path of api.ts. `apiError` is the ApiError class (status plus detail, whose
message is the detail); `domAbortError` is the DOMException named AbortError
produced when the abort controller fires; `typeError` is the TypeError a
failed fetch rejects with on a transport failure (per the Fetch standard);
`plainError` is a plain Error constructed with a message. -/
inductive JsError where
  | apiError (status : Nat) (detail : String)
  | domAbortError
  | typeError (msg : String)
  | plainError (msg : String)
deriving DecidableEq, Repr

/-- The message property of the modeled error values. For ApiError the
constructor passes detail to super, so message = detail. -/
def JsError.message : JsError → String
  | .apiError _ detail => detail
  | .domAbortError => "The operation was aborted."
  | .typeError m => m
  | .plainError m => m

/-- The persisted client token storage: localStorage under the single key
startbot_token. `none` models an absent key. -/
structure ClientState where
  token : Option String
deriving DecidableEq, Repr

/-- JavaScript truthiness of the value returned by getToken (a string or
null): null and the empty string are falsy. Both api.ts (request) and
auth-context.tsx (refresh) test the token with a plain `if`. -/
def tokenTruthy : Option String → Bool
  | none => false
  | some t => !(t == "")

/-- The Authorization header attached by request in api.ts: present exactly
when the stored token is truthy, with value Bearer followed by the token. -/
def authHeader (s : ClientState) : Option String :=
  match s.token with
  | none => none
  | some t => if t == "" then none else some ("Bearer " ++ t)

/-- Message of the plain Error request throws when the abort controller fired
because of the timeout (api.ts line 107). -/
def timeoutMsg : String := "Request timed out — the server took too long to respond"

/-- The error value thrown by request on timeout. -/
def timeoutError : JsError := .plainError timeoutMsg

/-- Default timeout budget of request in api.ts (120_000 ms). -/
def defaultTimeoutMs : Nat := 120000

/-- Detail string attached to an ApiError: the detail field of the JSON error
body when present, else the generic message derived from the status code
(api.ts lines 122 to 129). `none` covers both a body without a detail field
and a non-JSON body. -/
def errorDetail (status : Nat) (bodyDetail : Option String) : String :=
  match bodyDetail with
  | some d => d
  | none => "Request failed with status " ++ toString status

/-- Outcome of one underlying fetch from the point of view of request.
`respondOk` is a response with res.ok true whose JSON body decodes to the
expected payload; `respondError` is a response with res.ok false (status at
least 400 for this API) carrying an optional detail field; `networkFail` is a
transport failure, which fetch reports by rejecting with a TypeError;
`timeoutElapse` is the budget elapsing before any response, upon which the
timer aborts the controller and fetch rejects with the AbortError. -/
inductive ServerBehavior (α : Type) where
  | respondOk (data : α)
  | respondError (status : Nat) (bodyDetail : Option String)
  | networkFail (msg : String)
  | timeoutElapse
deriving DecidableEq, Repr

/-- Result of an awaited call: either the decoded value or a thrown error. -/
inductive ReqResult (α : Type) where
  | ok (data : α)
  | thrown (e : JsError)
deriving DecidableEq, Repr

/-- Everything observable about one execution of request: the token storage
after the call, the settled result, whether the abort controller fired, and
the Authorization header that was attached to the outgoing request. -/
structure RequestOutput (α : Type) where
  state : ClientState
  result : ReqResult α
  aborted : Bool
  sentAuthHeader : Option String
deriving DecidableEq, Repr

/-- Shallow embedding of request from api.ts. Reads the stored token to build
the Authorization header; on a non-ok response builds the detail, clears the
stored token when the status is 401, and throws an ApiError; on a transport
failure rethrows the fetch rejection; on timeout the timer has aborted the
controller, fetch rejects with the AbortError, and request converts it into
the plain timeout Error. -/
def request (s : ClientState) (b : ServerBehavior α) : RequestOutput α :=
  let hdr := authHeader s
  match b with
  | .respondOk d => ⟨s, .ok d, false, hdr⟩
  | .respondError status bodyDetail =>
      let s' := if status == 401 then ClientState.mk none else s
      ⟨s', .thrown (.apiError status (errorDetail status bodyDetail)), false, hdr⟩
  | .networkFail m => ⟨s, .thrown (.typeError m), false, hdr⟩
  | .timeoutElapse => ⟨s, .thrown timeoutError, true, hdr⟩

/-- UserPublic from lib/types.ts. -/
structure UserPublic where
  id : String
  email : String
  username : String
  auth_provider : String
  is_email_verified : Bool
deriving DecidableEq, Repr

/-- AuthResponse from lib/types.ts (body of POST /auth/login). -/
structure AuthResponse where
  access_token : String
  token_type : String
  user : UserPublic
deriving DecidableEq, Repr

/-- Shallow embedding of login from api.ts: awaits request on
POST /auth/login and, only when it resolved, persists data.access_token via
setToken. A thrown request propagates unchanged, but any storage side effect
request itself performed (the 401 auto-clear) has already happened. -/
def login (s : ClientState) (b : ServerBehavior AuthResponse) :
    ClientState × ReqResult AuthResponse :=
  let out := request s b
  match out.result with
  | .ok d => (ClientState.mk (some d.access_token), .ok d)
  | .thrown e => (out.state, .thrown e)

/-- Shallow embedding of refresh from auth-context.tsx: everything observable
after the call settles. -/
structure RefreshOutput where
  store : ClientState
  user : Option UserPublic
  loading : Bool
  getMeCalls : Nat
deriving DecidableEq, Repr

/-- Shallow embedding of refresh from auth-context.tsx. Reads the persisted
token; when it is falsy, sets user to null and loading to false without any
network call. Otherwise awaits getMe (a request on GET /auth/me); on success
sets user to the snapshot, on any throw performs clearToken and sets user to
null; the finally block ends loading false on both branches. -/
def refresh (s : ClientState) (b : ServerBehavior UserPublic) : RefreshOutput :=
  if tokenTruthy s.token then
    let out := request s b
    match out.result with
    | .ok me => ⟨out.state, some me, false, 1⟩
    | .thrown _ => ⟨ClientState.mk none, none, false, 1⟩
  else
    ⟨s, none, false, 0⟩

/-- What RouteGuard renders: the neutral spinner placeholder while loading,
nothing (null) when unauthenticated, or its children. -/
inductive GuardView where
  | placeholder
  | blank
  | children
deriving DecidableEq, Repr

/-- Render output and redirect effect of RouteGuard for one input state. -/
structure GuardOutput where
  view : GuardView
  redirectTo : Option String
deriving DecidableEq, Repr

/-- Shallow embedding of RouteGuard from route-guard.tsx: the effect calls
router.replace on /auth/login exactly when loading is false and user is null;
the render shows the placeholder while loading, null when user is null, and
the children otherwise. -/
def routeGuard (user : Option UserPublic) (loading : Bool) : GuardOutput :=
  { view := if loading then .placeholder
            else if user.isNone then .blank
            else .children,
    redirectTo := if !loading && user.isNone then some "/auth/login" else none }

/-- Decoded JSON shape of the module_scores object (ModuleScores in
lib/types.ts). The evaluation screen checks at runtime that
final_viability_score is a number, so every decoded numeric field is modeled
as an optional rational (absent covers both a missing field and a non-number
value). -/
structure ModuleScores where
  problem_intensity : Option ℚ
  market_timing : Option ℚ
  competition_pressure : Option ℚ
  market_potential : Option ℚ
  execution_feasibility : Option ℚ
  final_viability_score : Option ℚ
deriving DecidableEq, Repr

/-- Decoded JSON shape of an evaluation report (IdeaEvaluationReport in
lib/types.ts), restricted to the fields the embedded control flow consults;
module_scores is optional because the screen checks its presence. The decoded
body of a call is carried as Option EvalReport so that a null body is
representable, matching the data truthiness check. -/
structure EvalReport where
  idea_id : String
  module_scores : Option ModuleScores
deriving DecidableEq, Repr

/-- Path of getEvaluation in api.ts. -/
def getEvaluationPath (ideaId : String) : String :=
  "/ideas/" ++ ideaId ++ "/evaluation"

/-- Path of evaluateIdea in api.ts. -/
def evaluateIdeaPath (ideaId : String) : String :=
  "/ideas/" ++ ideaId ++ "/evaluate"

/-- Status union of the evaluation screen. -/
inductive EvalStatus where
  | idle
  | loading
  | success
  | error
deriving DecidableEq, Repr

/-- Everything observable after run in EvaluationContent settles: the status
and report and error states, plus how many generate (POST evaluate) calls the
run issued. -/
structure EvalRunResult where
  status : EvalStatus
  report : Option (Option EvalReport)
  errorMsg : Option String
  generateCalls : Nat
deriving DecidableEq, Repr

/-- The discrimination the evaluation screen applies to the error of the read
call: getErr instanceof ApiError with status 404. -/
def isApiError404 : JsError → Bool
  | .apiError status _ => status == 404
  | _ => false

/-- The response shape validation of run: data truthy, module_scores present,
and final_viability_score of type number. -/
def validEval : Option EvalReport → Bool
  | none => false
  | some r =>
      match r.module_scores with
      | none => false
      | some ms => ms.final_viability_score.isSome

/-- Message of the invalid-shape Error thrown by run. -/
def invalidEvalMsg : String :=
  "Invalid evaluation response — missing module_scores or final_viability_score"

/-- Shallow embedding of run from EvaluationContent (evaluation screen).
Tries the read call (GET evaluation); on success validates the shape. When
the read throws an ApiError with status 404, issues exactly one generate call
(POST evaluate) and validates its result; any other read error is rethrown to
the outer catch. The outer catch maps every thrown error to the error status
with the error message as its text. The teardown flag is taken as still
active. -/
def evalRun (readRes genRes : ReqResult (Option EvalReport)) : EvalRunResult :=
  let assemble : Option EvalReport → Nat → EvalRunResult := fun data n =>
    if validEval data then ⟨.success, some data, none, n⟩
    else ⟨.error, none, some invalidEvalMsg, n⟩
  match readRes with
  | .ok data => assemble data 0
  | .thrown e =>
      if isApiError404 e then
        match genRes with
        | .ok data => assemble data 1
        | .thrown e' => ⟨.error, none, some e'.message, 1⟩
      else
        ⟨.error, none, some e.message, 0⟩

/-- The finalScore the success branch of the evaluation screen displays:
report.module_scores.final_viability_score. -/
def EvalRunResult.finalScore (r : EvalRunResult) : Option ℚ :=
  match r.report with
  | some (some rep) =>
      match rep.module_scores with
      | some ms => ms.final_viability_score
      | none => none
  | _ => none

/-- MarketResearchRecord from lib/types.ts, restricted to the fields the
embedded control flow consults (the remaining fields are display-only
numbers, strings and lists). status is one of pending, completed, failed. -/
structure MarketResearchRecord where
  id : String
  idea_id : String
  status : String
deriving DecidableEq, Repr

/-- Status union of the market research screen. -/
inductive MRStatus where
  | idle
  | loading
  | generating
  | success
  | error
deriving DecidableEq, Repr

/-- Everything observable after load or handleGenerate in
MarketResearchContent settles, plus the count of generate (POST) calls
issued. -/
structure MRResult where
  status : MRStatus
  research : Option MarketResearchRecord
  errorMsg : Option String
  generateCalls : Nat
deriving DecidableEq, Repr

/-- Error message the market research generate catch derives: detail for an
ApiError, else the message of the Error (every modeled error is an Error, so
the final fallback string is unreachable). -/
def mrGenMessage : JsError → String
  | .apiError _ detail => detail
  | e => e.message

/-- Shallow embedding of load from MarketResearchContent. On a resolved read
it stores the record and becomes success exactly when the record status is
completed, else idle. On a thrown read: an ApiError with status 404 leads to
idle (the screen then shows the generate button, issuing no generate call by
itself); any other error leads to the error status. The teardown flag is
taken as still active. -/
def mrLoad (readRes : ReqResult MarketResearchRecord) : MRResult :=
  match readRes with
  | .ok data =>
      ⟨if data.status == "completed" then .success else .idle, some data, none, 0⟩
  | .thrown e =>
      if isApiError404 e then ⟨.idle, none, none, 0⟩
      else ⟨.error, none, some e.message, 0⟩

/-- Shallow embedding of handleGenerate from MarketResearchContent. The
callback consults no busy flag: whatever the current status is, it sets
generating, issues exactly one generate call, and maps its outcome to success
or error. -/
def mrHandleGenerate (current : MRStatus) (genRes : ReqResult MarketResearchRecord) :
    MRResult :=
  match genRes with
  | .ok data => ⟨.success, some data, none, 1⟩
  | .thrown e => ⟨.error, none, some (mrGenMessage e), 1⟩

/-- The five top-level views the market research screen can render. -/
inductive MRView where
  | loadingView
  | generatingView
  | errorView
  | idleView
  | successView
deriving DecidableEq, Repr

/-- Which view MarketResearchContent renders, following the early-return
order of the component: loading, generating, error, then the idle condition
(status idle, or no research, or research not completed), else success. -/
def mrRender (status : MRStatus) (research : Option MarketResearchRecord) : MRView :=
  if status == .loading then .loadingView
  else if status == .generating then .generatingView
  else if status == .error then .errorView
  else if status == .idle then .idleView
  else
    match research with
    | none => .idleView
    | some r => if r.status == "completed" then .successView else .idleView

/-- Whether a view of the market research screen contains any control wired
to handleGenerate: the error view has the Try Again button, the idle view the
Generate button, the success view the Regenerate button; the loading and
generating views render only a spinner. -/
def MRView.hasGenerateControl : MRView → Bool
  | .loadingView => false
  | .generatingView => false
  | .errorView => true
  | .idleView => true
  | .successView => true

/-- Whether the MVP action of the evaluation screen is enabled, as the screen
derives it from the fetched market research record: the state hasMR is set to
true exactly when the fetch resolved with status completed, and to false on
any rejection; the MVP button navigates when hasMR is truthy and opens the
gating modal otherwise. -/
def hasMRFromFetch : ReqResult MarketResearchRecord → Bool
  | .ok r => r.status == "completed"
  | .thrown _ => false

/-- The enabled or locked decision the evaluation screen computes for the MVP
agent action. -/
structure MvpGate where
  enabled : Bool
  lockTitle : Option String
deriving DecidableEq, Repr

/-- The MVP dependency gate of the evaluation screen as a function of the
fetched market research outcome: enabled iff hasMR, and when locked the
button carries the tooltip title naming the unmet prerequisite. -/
def mvpGate (mrFetch : ReqResult MarketResearchRecord) : MvpGate :=
  let hasMR := hasMRFromFetch mrFetch
  ⟨hasMR, if hasMR then none else some "Requires completed market research"⟩

/-- LegalDocumentRecord from lib/types.ts, restricted to the fields the
embedded control flow consults (the document payload and timestamps are
display-only). status is one of pending, generated, failed. -/
structure LegalDocumentRecord where
  id : String
  idea_id : String
  document_type : String
  status : String
deriving DecidableEq, Repr

/-- The documents-list update handleGenerate in LegalContent performs on a
resolved generate call: drop every record of the same document_type and put
the returned record first. -/
def updateDocuments (prev : List LegalDocumentRecord) (result : LegalDocumentRecord) :
    List LegalDocumentRecord :=
  result :: prev.filter (fun d => d.document_type != result.document_type)

/-- getDocByType from LegalContent: the first record of the given type whose
status is generated. -/
def getDocByType (docs : List LegalDocumentRecord) (key : String) :
    Option LegalDocumentRecord :=
  docs.find? (fun d => d.document_type == key && d.status == "generated")

/-- Everything observable after handleGenerate in LegalContent settles, plus
the count of generate calls issued. generatingAfter is the busy marker after
the finally block. -/
structure LegalGenOutput where
  documents : List LegalDocumentRecord
  errorMsg : Option String
  generatingAfter : Option String
  generateCalls : Nat
deriving DecidableEq, Repr

/-- Shallow embedding of handleGenerate from LegalContent for a document type
key. The callback consults no busy flag: it marks the type as generating,
issues exactly one generate call with body document_type set to the key, and
on success replaces the same-type record in the list; the finally block
clears the busy marker. -/
def legalHandleGenerate (docs : List LegalDocumentRecord) (docTypeKey : String)
    (genRes : ReqResult LegalDocumentRecord) : LegalGenOutput :=
  match genRes with
  | .ok result => ⟨updateDocuments docs result, none, none, 1⟩
  | .thrown e => ⟨docs, some e.message, none, 1⟩

/-- Whether the card button of a document type on the legal screen is
disabled: exactly when that type is the one currently generating. -/
def legalButtonDisabled (generating : Option String) (dtKey : String) : Bool :=
  generating == some dtKey

/-- At most one record per document type in a documents list. -/
def atMostOnePerType (docs : List LegalDocumentRecord) : Prop :=
  ∀ t : String, docs.countP (fun d => d.document_type == t) ≤ 1

/-- A concrete user snapshot for closed instances. -/
def sampleUser : UserPublic :=
  ⟨"u-1", "founder@example.com", "founder", "local", true⟩

/-- A concrete market research record with completed status. -/
def sampleMRRecord : MarketResearchRecord := ⟨"mr-1", "abc123", "completed"⟩

/-- A concrete module_scores object whose final_viability_score is 72.5. -/
def sampleModuleScores : ModuleScores :=
  ⟨some 60, some 55, some 40, some 70, some 65, some (72.5 : ℚ)⟩

/-- A concrete evaluation report for idea abc123. -/
def sampleEvalReport : EvalReport := ⟨"abc123", some sampleModuleScores⟩

/-- A concrete generated NDA record. -/
def sampleNdaDoc : LegalDocumentRecord := ⟨"ld-1", "abc123", "nda", "generated"⟩

/-- A concrete generated privacy policy record. -/
def samplePrivacyDoc : LegalDocumentRecord :=
  ⟨"ld-2", "abc123", "privacy_policy", "generated"⟩

/-- Filtering away one document type leaves no record counted for it. -/
theorem countP_filter_ne_eq_zero (rt : String) (l : List LegalDocumentRecord) :
    ((l.filter (fun d => d.document_type != rt)).countP
      (fun d => d.document_type == rt)) = 0 := by
  induction l with
  | nil => rfl
  | cons a l ih =>
      by_cases h : a.document_type = rt
      · simp [List.filter_cons, h, ih]
      · simp [List.filter_cons, List.countP_cons, h, ih]

/-- Filtering away one document type does not disturb the records of any
other type. -/
theorem filter_type_filter_ne (rt t : String) (h : t ≠ rt)
    (l : List LegalDocumentRecord) :
    ((l.filter (fun d => d.document_type != rt)).filter
        (fun d => d.document_type == t))
      = l.filter (fun d => d.document_type == t) := by
  induction l with
  | nil => rfl
  | cons a l ih =>
      by_cases ha : a.document_type = rt
      · have hat : ¬ a.document_type = t := by
          rw [ha]; exact fun hh => h hh.symm
        simp [List.filter_cons, ha, hat, Ne.symm h, ih]
      · simp [List.filter_cons, ha, ih]

/-- The count of any document type can only shrink under the filter. -/
theorem countP_filter_ne_le (rt t : String) (l : List LegalDocumentRecord) :
    ((l.filter (fun d => d.document_type != rt)).countP
        (fun d => d.document_type == t))
      ≤ l.countP (fun d => d.document_type == t) := by
  induction l with
  | nil => exact Nat.le_refl 0
  | cons a l ih =>
      rw [List.filter_cons, List.countP_cons]
      by_cases ha : (a.document_type != rt) = true
      · rw [if_pos ha, List.countP_cons]
        exact Nat.add_le_add_right ih _
      · rw [if_neg ha]
        exact Nat.le_trans ih (Nat.le_add_right _ _)

/-- Claim C3: a request resolving with status 401 clears the stored bearer
token as a side effect while still throwing the typed HTTP error, and the
next request, finding no stored token, attaches no Authorization header. -/
theorem request_401_clears_token {α β : Type} (s : ClientState)
    (bodyDetail : Option String) (next : ServerBehavior β) :
    (request (α := α) s (.respondError 401 bodyDetail)).state.token = none ∧
    (request (α := α) s (.respondError 401 bodyDetail)).result
      = .thrown (.apiError 401 (errorDetail 401 bodyDetail)) ∧
    (request (request (α := α) s (.respondError 401 bodyDetail)).state
        next).sentAuthHeader = none := by
  refine ⟨rfl, rfl, ?_⟩
  cases next <;> rfl

/-- Claim C6: when the timeout budget elapses before a response, the abort
controller has fired and the thrown error is the timeout error, which differs
from the TypeError a transport failure rethrows and from the ApiError thrown
on an HTTP error response; the default budget is 120000 ms. -/
theorem request_timeout_spec {α : Type} (s : ClientState) :
    (request (α := α) s .timeoutElapse).aborted = true ∧
    (request (α := α) s .timeoutElapse).result = .thrown timeoutError ∧
    (∀ m : String, (timeoutError == JsError.typeError m) = false) ∧
    (∀ (st : Nat) (d : String),
        (timeoutError == JsError.apiError st d) = false) ∧
    (∀ m : String,
        (request (α := α) s (.networkFail m)).result = .thrown (.typeError m) ∧
        (request (α := α) s (.networkFail m)).aborted = false) ∧
    (∀ (st : Nat) (bd : Option String),
        (request (α := α) s (.respondError st bd)).result
          = .thrown (.apiError st (errorDetail st bd))) ∧
    defaultTimeoutMs = 120000 := by
  exact ⟨rfl, rfl, fun m => rfl, fun st d => rfl,
    fun m => ⟨rfl, rfl⟩, fun st bd => rfl, rfl⟩

/-- Claim C1 counterexample: on the market research screen a 404 on the read
call issues no generate call at all and leaves the machine in the idle state,
which is neither Success nor Error; and on the evaluation screen a 404
followed by a generate call that resolves, but with a body that is not a
valid report (here a null body), ends in Error rather than Success, so
generate success alone does not yield Success. -/
theorem read_404_no_generate_and_invalid_shape :
    (mrLoad (.thrown (.apiError 404 "Market research not found"))).generateCalls
      = 0 ∧
    (mrLoad (.thrown (.apiError 404 "Market research not found"))).status
      = .idle ∧
    ((mrLoad (.thrown (.apiError 404 "Market research not found"))).status
      == .success) = false ∧
    ((mrLoad (.thrown (.apiError 404 "Market research not found"))).status
      == .error) = false ∧
    (evalRun (.thrown (.apiError 404 "Evaluation not found")) (.ok none)).status
      = .error ∧
    ((evalRun (.thrown (.apiError 404 "Evaluation not found"))
        (.ok none)).status == .success) = false := by
  decide

/-- Claim C1 (amended): on the evaluation screen a 404 on the read call is
followed by exactly one generate call before a terminal state, namely
Success carrying the returned report when the generate call resolves with a
body holding a numeric final_viability_score, and Error otherwise (on a
generate failure with the failure message, or on a resolved generate with an
invalid response shape); a non-404 read failure issues no generate call and
yields Error. On the market research screen a 404 on the read call issues no
generate call and yields the idle state (generation there requires an
explicit user action), and a non-404 read failure issues no generate call
and yields Error. -/
theorem read_failure_dispatch (d : String) (e : JsError)
    (data : Option EvalReport) (e' : JsError) :
    (validEval data = true →
        evalRun (.thrown (.apiError 404 d)) (.ok data)
          = ⟨.success, some data, none, 1⟩) ∧
    (validEval data = false →
        evalRun (.thrown (.apiError 404 d)) (.ok data)
          = ⟨.error, none, some invalidEvalMsg, 1⟩) ∧
    (evalRun (.thrown (.apiError 404 d)) (.thrown e')
        = ⟨.error, none, some e'.message, 1⟩) ∧
    (isApiError404 e = false →
        ∀ genRes, evalRun (.thrown e) genRes
          = ⟨.error, none, some e.message, 0⟩) ∧
    (mrLoad (.thrown (.apiError 404 d)) = ⟨.idle, none, none, 0⟩) ∧
    (isApiError404 e = false →
        mrLoad (.thrown e) = ⟨.error, none, some e.message, 0⟩) := by
  refine ⟨?_, ?_, rfl, ?_, rfl, ?_⟩
  · intro h
    simp [evalRun, isApiError404, h]
  · intro h
    simp [evalRun, isApiError404, h]
  · intro h genRes
    simp [evalRun, h]
  · intro h
    simp [mrLoad, h]

/-- Claim C1 witness: the amended statement applied at concrete inputs,
covering the generate-success branch and the non-404 read failure branch. -/
theorem read_failure_dispatch_witness :
    evalRun (.thrown (.apiError 404 "Evaluation not found"))
        (.ok (some sampleEvalReport))
      = ⟨.success, some (some sampleEvalReport), none, 1⟩ ∧
    mrLoad (.thrown (.apiError 500 "boom"))
      = ⟨.error, none, some "boom", 0⟩ := by
  have h := read_failure_dispatch "Evaluation not found" (.apiError 500 "boom")
    (some sampleEvalReport) (.typeError "Failed to fetch")
  exact ⟨h.1 (by decide), h.2.2.2.2.2 (by decide)⟩

/-- Claim C2: for idea abc123, a 404 on the stored-evaluation read followed
by a resolved generate call whose body carries a final_viability_score of
72.5 ends in the Success state with finalScore 72.5, after exactly one
generate call. -/
theorem evaluation_end_to_end :
    getEvaluationPath "abc123" = "/ideas/abc123/evaluation" ∧
    evaluateIdeaPath "abc123" = "/ideas/abc123/evaluate" ∧
    (evalRun
        (request (ClientState.mk (some "tok"))
          (.respondError 404 (some "Evaluation not found"))).result
        (request (ClientState.mk (some "tok"))
          (.respondOk (some sampleEvalReport))).result).status = .success ∧
    (evalRun
        (request (ClientState.mk (some "tok"))
          (.respondError 404 (some "Evaluation not found"))).result
        (request (ClientState.mk (some "tok"))
          (.respondOk (some sampleEvalReport))).result).finalScore
      = some (72.5 : ℚ) ∧
    (evalRun
        (request (ClientState.mk (some "tok"))
          (.respondError 404 (some "Evaluation not found"))).result
        (request (ClientState.mk (some "tok"))
          (.respondOk (some sampleEvalReport))).result).generateCalls = 1 := by
  refine ⟨rfl, rfl, rfl, ?_, rfl⟩
  norm_num [request, evalRun, isApiError404, validEval, errorDetail,
    sampleEvalReport, sampleModuleScores, EvalRunResult.finalScore]

/-- Claim C4 counterexample: invoking the market research generate callback
while the machine is already Generating (or Loading) still performs a network
call, so the claimed zero-additional-calls guard does not exist inside the
callback. -/
theorem generate_while_generating_still_calls :
    (mrHandleGenerate .generating (.ok sampleMRRecord)).generateCalls = 1 ∧
    ((mrHandleGenerate .generating (.ok sampleMRRecord)).generateCalls == 0)
      = false ∧
    ((mrHandleGenerate .loading (.ok sampleMRRecord)).generateCalls == 0)
      = false := by
  decide

/-- Claim C4 (amended): the generate callbacks contain no reentrancy guard
and issue exactly one generate call whenever invoked, whatever the current
state; mutual exclusion holds only at the interface level, because the market
research screen renders no control wired to the callback while Loading or
Generating, and the legal screen disables the card button of a document type
while that type is generating. -/
theorem no_reentrancy_guard_only_ui_exclusion (st : MRStatus)
    (genRes : ReqResult MarketResearchRecord)
    (research : Option MarketResearchRecord)
    (docs : List LegalDocumentRecord) (key : String)
    (legalRes : ReqResult LegalDocumentRecord) :
    (mrHandleGenerate st genRes).generateCalls = 1 ∧
    (st = .loading ∨ st = .generating →
        (mrRender st research).hasGenerateControl = false) ∧
    (legalHandleGenerate docs key legalRes).generateCalls = 1 ∧
    legalButtonDisabled (some key) key = true := by
  refine ⟨?_, ?_, ?_, ?_⟩
  · cases genRes <;> rfl
  · rintro (rfl | rfl) <;> rfl
  · cases legalRes <;> rfl
  · simp [legalButtonDisabled]

/-- Claim C4 witness: the amended statement applied at concrete inputs. -/
theorem no_reentrancy_guard_only_ui_exclusion_witness :
    (mrHandleGenerate .generating (.ok sampleMRRecord)).generateCalls = 1 ∧
    (mrRender .generating none).hasGenerateControl = false := by
  have h := no_reentrancy_guard_only_ui_exclusion .generating
    (.ok sampleMRRecord) none [] "nda" (.ok sampleNdaDoc)
  exact ⟨h.1, h.2.1 (Or.inr rfl)⟩

/-- Claim C5: the MVP gate of the evaluation screen is a pure function of
the fetched market research outcome; it is enabled exactly when that fetch
resolved with status completed, and otherwise the lock reason is the tooltip
naming market research as the unmet prerequisite. -/
theorem mvp_gate_spec (mrFetch : ReqResult MarketResearchRecord) :
    ((mvpGate mrFetch).enabled = true ↔
        ∃ r, mrFetch = .ok r ∧ r.status = "completed") ∧
    ((mvpGate mrFetch).enabled = false →
        (mvpGate mrFetch).lockTitle
          = some ("Requires completed " ++ "market research")) ∧
    (∀ mrFetch₂, mrFetch = mrFetch₂ → mvpGate mrFetch = mvpGate mrFetch₂) := by
  refine ⟨?_, ?_, fun _ h => by rw [h]⟩
  · cases mrFetch with
    | ok r =>
        by_cases h : r.status = "completed" <;>
          simp [mvpGate, hasMRFromFetch, h]
    | thrown e => simp [mvpGate, hasMRFromFetch]
  · cases mrFetch with
    | ok r =>
        by_cases h : r.status = "completed" <;>
          simp [mvpGate, hasMRFromFetch, h]
    | thrown e => intro _; rfl

/-- Claim C5 witness: the gate statement applied at concrete inputs. -/
theorem mvp_gate_spec_witness :
    (mvpGate (.thrown (.apiError 500 "boom"))).enabled = false ∧
    (mvpGate (.thrown (.apiError 500 "boom"))).lockTitle
      = some ("Requires completed " ++ "market research") ∧
    (mvpGate (.ok sampleMRRecord)).enabled = true := by
  have h1 := mvp_gate_spec (.thrown (.apiError 500 "boom"))
  have h2 := mvp_gate_spec (.ok sampleMRRecord)
  exact ⟨by decide, h1.2.1 (by decide),
    h2.1.mpr ⟨sampleMRRecord, rfl, by decide⟩⟩

/-- Claim C7: refresh always ends with loading false; with no truthy
persisted token it makes no who-am-I call and leaves user null; with a token,
a resolved who-am-I call sets user to the snapshot, and a failed one clears
the token and leaves user null. -/
theorem refresh_spec (s : ClientState) (b : ServerBehavior UserPublic) :
    (refresh s b).loading = false ∧
    (tokenTruthy s.token = false →
        (refresh s b).user = none ∧ (refresh s b).getMeCalls = 0 ∧
        (refresh s b).store = s) ∧
    (tokenTruthy s.token = true →
        (refresh s b).getMeCalls = 1 ∧
        (∀ me, b = .respondOk me → (refresh s b).user = some me) ∧
        ((∀ me, b ≠ .respondOk me) →
            (refresh s b).store.token = none ∧ (refresh s b).user = none)) := by
  refine ⟨?_, ?_, ?_⟩
  · by_cases ht : tokenTruthy s.token
    · cases b <;> simp [refresh, ht, request]
    · simp [refresh, ht]
  · intro ht
    simp [refresh, ht]
  · intro ht
    refine ⟨?_, ?_, ?_⟩
    · cases b <;> simp [refresh, ht, request]
    · rintro me rfl
      simp [refresh, ht, request]
    · intro hne
      cases b with
      | respondOk me => exact absurd rfl (hne me)
      | respondError st bd => simp [refresh, ht, request]
      | networkFail m => simp [refresh, ht, request]
      | timeoutElapse => simp [refresh, ht, request]

/-- Claim C7 witness: refresh applied at concrete inputs. -/
theorem refresh_spec_witness :
    (refresh (ClientState.mk (some "tok")) (.respondOk sampleUser)).loading
      = false ∧
    (refresh (ClientState.mk (some "tok")) (.respondOk sampleUser)).user
      = some sampleUser := by
  have h := refresh_spec (ClientState.mk (some "tok")) (.respondOk sampleUser)
  exact ⟨h.1, (h.2.2 (by decide)).2.1 sampleUser rfl⟩

/-- Claim C8: while loading, RouteGuard renders the placeholder and performs
no redirect; once loading is false it renders the children exactly when user
is non-null, and otherwise renders nothing and redirects to the login entry
point. -/
theorem route_guard_spec (user : Option UserPublic) (loading : Bool) :
    (loading = true → routeGuard user loading
        = ⟨GuardView.placeholder, none⟩) ∧
    (loading = false → user = none → routeGuard user loading
        = ⟨GuardView.blank, some "/auth/login"⟩) ∧
    (loading = false → ∀ u, user = some u → routeGuard user loading
        = ⟨GuardView.children, none⟩) := by
  refine ⟨?_, ?_, ?_⟩
  · rintro rfl
    cases user <;> rfl
  · rintro rfl rfl
    rfl
  · rintro rfl u rfl
    rfl

/-- Claim C8 witness: RouteGuard applied at concrete inputs. -/
theorem route_guard_spec_witness :
    routeGuard none false = ⟨GuardView.blank, some "/auth/login"⟩ ∧
    routeGuard none true = ⟨GuardView.placeholder, none⟩ := by
  exact ⟨(route_guard_spec none false).2.1 rfl rfl,
    (route_guard_spec none true).1 rfl⟩

/-- Claim C9: after a resolved generate call the returned record is the
unique record of its document type in the updated list (placed first and
found by getDocByType when generated), records of every other document type
are untouched, and the at-most-one-record-per-type invariant is preserved. -/
theorem legal_docs_replace_per_type (prev : List LegalDocumentRecord)
    (result : LegalDocumentRecord) :
    ((updateDocuments prev result).countP
        (fun d => d.document_type == result.document_type)) = 1 ∧
    (updateDocuments prev result).head? = some result ∧
    (∀ t : String, t ≠ result.document_type →
        (updateDocuments prev result).filter (fun d => d.document_type == t)
          = prev.filter (fun d => d.document_type == t)) ∧
    (result.status = "generated" →
        getDocByType (updateDocuments prev result) result.document_type
          = some result) ∧
    (atMostOnePerType prev → atMostOnePerType (updateDocuments prev result)) := by
  refine ⟨?_, rfl, ?_, ?_, ?_⟩
  · simp [updateDocuments, List.countP_cons,
      countP_filter_ne_eq_zero result.document_type prev]
  · intro t ht
    have hr : ¬ result.document_type = t := fun hh => ht hh.symm
    simp [updateDocuments, List.filter_cons, hr,
      filter_type_filter_ne result.document_type t ht prev]
  · intro hgen
    simp [getDocByType, updateDocuments, List.find?_cons, hgen]
  · intro hinv t
    by_cases ht : t = result.document_type
    · subst ht
      simp [updateDocuments, List.countP_cons,
        countP_filter_ne_eq_zero result.document_type prev]
    · have hr : ¬ result.document_type = t := fun hh => ht hh.symm
      have hle := countP_filter_ne_le result.document_type t prev
      calc ((updateDocuments prev result).countP
              (fun d => d.document_type == t))
          = ((prev.filter (fun d => d.document_type != result.document_type)).countP
              (fun d => d.document_type == t)) := by
            simp [updateDocuments, List.countP_cons, hr]
        _ ≤ prev.countP (fun d => d.document_type == t) := hle
        _ ≤ 1 := hinv t

/-- Claim C9 witness: the replacement statement applied at concrete inputs. -/
theorem legal_docs_replace_per_type_witness :
    ((updateDocuments [sampleNdaDoc] samplePrivacyDoc).filter
        (fun d => d.document_type == "nda")) = [sampleNdaDoc] ∧
    atMostOnePerType (updateDocuments [sampleNdaDoc] samplePrivacyDoc) := by
  have h := legal_docs_replace_per_type [sampleNdaDoc] samplePrivacyDoc
  refine ⟨?_, ?_⟩
  · have hft := h.2.2.1 "nda" (by decide)
    rw [hft]
    decide
  · refine h.2.2.2.2 ?_
    intro t
    by_cases hnda : sampleNdaDoc.document_type == t
    · simp [List.countP_cons, hnda]
    · simp [List.countP_cons, hnda]

/-- Claim C10 counterexample: a login attempt that fails with an HTTP 401
response does change the persisted token storage, because the shared request
helper auto-clears the stored token on any 401 before the error is thrown. -/
theorem login_http_error_mutates_storage :
    (login (ClientState.mk (some "old-token"))
        (.respondError 401 (some "Invalid credentials"))).2
      = .thrown (.apiError 401 "Invalid credentials") ∧
    (login (ClientState.mk (some "old-token"))
        (.respondError 401 (some "Invalid credentials"))).1.token = none ∧
    ((login (ClientState.mk (some "old-token"))
        (.respondError 401 (some "Invalid credentials"))).1.token
      == some "old-token") = false := by
  decide

/-- Claim C10 (amended): login persists the token only on success, where the
stored token becomes the access_token of the response; on a failed login the
storage is left unchanged except that an HTTP 401 response clears the stored
token through the shared request helper. -/
theorem login_spec (s : ClientState) (b : ServerBehavior AuthResponse) :
    (∀ d, b = .respondOk d →
        login s b = (ClientState.mk (some d.access_token), .ok d)) ∧
    (∀ bd, b = .respondError 401 bd →
        (login s b).1.token = none ∧
        (login s b).2 = .thrown (.apiError 401 (errorDetail 401 bd))) ∧
    (∀ st bd, b = .respondError st bd → st ≠ 401 → (login s b).1 = s) ∧
    (∀ m, b = .networkFail m → (login s b).1 = s) ∧
    (b = .timeoutElapse → (login s b).1 = s) := by
  refine ⟨?_, ?_, ?_, ?_, ?_⟩
  · rintro d rfl
    rfl
  · rintro bd rfl
    exact ⟨rfl, rfl⟩
  · rintro st bd rfl hne
    have hbeq : (st == 401) = false := by
      simpa using hne
    simp [login, request, hbeq]
  · rintro m rfl
    rfl
  · rintro rfl
    rfl

/-- Claim C10 witness: the amended statement applied at concrete inputs. -/
theorem login_spec_witness :
    (login (ClientState.mk (some "old-token"))
        (.networkFail "Failed to fetch")).1
      = ClientState.mk (some "old-token") ∧
    (login (ClientState.mk none)
        (.respondOk ⟨"fresh-token", "bearer", sampleUser⟩)).1
      = ClientState.mk (some "fresh-token") := by
  have h1 := login_spec (ClientState.mk (some "old-token"))
    (.networkFail "Failed to fetch")
  have h2 := login_spec (ClientState.mk none)
    (.respondOk ⟨"fresh-token", "bearer", sampleUser⟩)
  exact ⟨h1.2.2.2.1 "Failed to fetch" rfl,
    by rw [h2.1 ⟨"fresh-token", "bearer", sampleUser⟩ rfl]⟩

end StartBot
